import Mathlib

/-!
Shallow embedding of the touch-point tracking subsystem in `src/dix/touch.c`
(xserver DIX touch layer), together with proofs of the specification's
testable properties.

Modelling conventions:
* C arrays with a separate element count become Lean `List`s whose length is
  the allocated capacity, with counts kept as separate `Nat` fields where the
  C structs keep them.
* Machine integers are modelled as `Nat` with explicit `% 2^32` where 32-bit
  wraparound matters (the client-id counter).
* Fallible allocations (`calloc`/`realloc`/`valuator_mask_new`) are modelled
  by explicit boolean success parameters.
* External collaborators (`UpdateDeviceState`, `XYToWindow`,
  `GetTouchEvents`, grab state) are modelled as function parameters or
  abstract state fields; this file only embeds the code of `touch.c`.
* Reading through a NULL pointer is modelled by the `CResult.nullDeref`
  outcome where the source can actually perform such a read.
-/

/-- Event flag bits. Modelled from the spec: the flag constants
`TOUCH_END`, `TOUCH_CLIENT_ID`, `TOUCH_REPLAYING`, `TOUCH_POINTER_EMULATED`
come from a header not in `src/`; only their distinctness as bits matters
here. -/
def TOUCH_END : Nat := 1

/-- Flag bit: event synthesized for client-id assignment. -/
def TOUCH_CLIENT_ID : Nat := 2

/-- Flag bit: event is being replayed from the history buffer. -/
def TOUCH_REPLAYING : Nat := 4

/-- Flag bit: event is pointer-emulated. -/
def TOUCH_POINTER_EMULATED : Nat := 8

/-- `#define TOUCH_HISTORY_SIZE 100` (`touch.c` line 38). -/
def TOUCH_HISTORY_SIZE : Nat := 100

/-- The event types relevant to `touch.c`; every other member of the C
`enum EventType` is collapsed into `ET_Other` (the `default:` case of the
switch in `TouchEventHistoryPush`). -/
inductive EvType where
  | ET_TouchBegin
  | ET_TouchUpdate
  | ET_TouchEnd
  | ET_Other
deriving DecidableEq, Repr

/-- The parts of the C `DeviceEvent` that `touch.c` reads or writes:
the event type, the flag bits, the valuator payload
(`ev->valuators.data[..]`, doubles modelled as `Int` since `touch.c` only
copies them), and the root coordinates used by `TouchEnsureSprite`. -/
structure DeviceEvent where
  type : EvType
  flags : Nat
  data : List Int
  root_x : Int
  root_y : Int
deriving DecidableEq, Repr

/-- A zeroed `DeviceEvent`, as produced by `calloc` for the history buffer. -/
def zeroEvent : DeviceEvent :=
  { type := EvType.ET_Other, flags := 0, data := [], root_x := 0, root_y := 0 }

/-- A valuator mask is opaque to `touch.c`: an array of per-axis optional
values. `valuator_mask_new(numAxes)` yields `freshMask numAxes`. -/
def ValuatorMask := List (Option Int)

instance : DecidableEq ValuatorMask := by
  unfold ValuatorMask; infer_instance

instance : Repr ValuatorMask :=
  inferInstanceAs (Repr (List (Option Int)))

/-- `valuator_mask_new(numAxes)`: a fresh mask with no axis set. -/
def freshMask (numAxes : Nat) : ValuatorMask := List.replicate numAxes none

/-- `valuator_mask_zero`: clear every axis, keeping the storage. -/
def maskZero (m : ValuatorMask) : ValuatorMask := m.map (fun _ => none)

/-- Sprite state: `spriteTrace` is the allocated window array (length =
allocated capacity), `spriteTraceSize` and `spriteTraceGood` are the
fields of the same names. Windows are window ids (`Nat`). -/
structure Sprite where
  spriteTrace : List Nat
  spriteTraceSize : Nat
  spriteTraceGood : Nat
deriving DecidableEq, Repr

/-- The fields of the C `TouchPointInfoRec` that `touch.c` uses.
`listeners` is the allocated listener-array capacity (`none` = NULL);
`history` is the allocated event-history array (`none` = NULL), with
`history_size` / `history_elements` kept separately as in the C struct. -/
structure TouchPointInfo where
  active : Bool
  client_id : Nat
  sourceid : Nat
  emulate_pointer : Bool
  pending_finish : Bool
  valuators : Option ValuatorMask
  sprite : Sprite
  listeners : Option Nat
  num_listeners : Nat
  num_grabs : Nat
  history : Option (List DeviceEvent)
  history_size : Nat
  history_elements : Nat
deriving DecidableEq, Repr

/-- A `TouchPointInfo` with every field zeroed, as after
`memset(ti, 0, sizeof(*ti))`. -/
def zeroTouchPoint : TouchPointInfo :=
  { active := false, client_id := 0, sourceid := 0, emulate_pointer := false,
    pending_finish := false, valuators := none,
    sprite := { spriteTrace := [], spriteTraceSize := 0, spriteTraceGood := 0 },
    listeners := none, num_listeners := 0, num_grabs := 0,
    history := none, history_size := 0, history_elements := 0 }

/-- `TouchEventHistoryAllocate` (`touch.c` 412-423). `allocOk` models the
success of `calloc`. On failure the C code sets `history = NULL`,
`history_elements = 0` and leaves `history_size` unchanged. Returns the
updated touch point and the C `Bool` result. -/
def TouchEventHistoryAllocate (allocOk : Bool) (ti : TouchPointInfo) :
    TouchPointInfo × Bool :=
  if ti.history.isSome then (ti, true)
  else if allocOk then
    ({ ti with history := some (List.replicate TOUCH_HISTORY_SIZE zeroEvent),
               history_elements := 0,
               history_size := TOUCH_HISTORY_SIZE }, true)
  else
    ({ ti with history := none, history_elements := 0 }, false)

/-- `TouchEventHistoryFree` (`touch.c` 425-432). -/
def TouchEventHistoryFree (ti : TouchPointInfo) : TouchPointInfo :=
  { ti with history := none, history_size := 0, history_elements := 0 }

/-- Result of a `TouchEventHistoryPush` call: the updated touch point,
whether the `DebugF` overflow diagnostic was emitted, and the buffer index
written by `ti->history[ti->history_elements++] = *ev` (`none` when the
push stored nothing). -/
structure PushResult where
  state : TouchPointInfo
  diag : Bool
  stored : Option Nat
deriving DecidableEq, Repr

/-- `TouchEventHistoryPush` (`touch.c` 442-475), faithful to the control
flow: the type switch runs first (a begin with `history_elements > 0`, an
end, or any other type returns without storing), then events flagged
`TOUCH_CLIENT_ID|TOUCH_REPLAYING` are rejected, then the event is stored at
index `history_elements` and the count is incremented and clamped to
`history_size - 1` with a diagnostic on overflow. -/
def TouchEventHistoryPush (ti : TouchPointInfo) (ev : DeviceEvent) : PushResult :=
  match ti.history with
  | none => { state := ti, diag := false, stored := none }
  | some buf =>
    let rejectedByType : Bool :=
      match ev.type with
      | EvType.ET_TouchBegin => decide (ti.history_elements > 0)
      | EvType.ET_TouchUpdate => false
      | EvType.ET_TouchEnd => true
      | EvType.ET_Other => true
    if rejectedByType then { state := ti, diag := false, stored := none }
    else if ev.flags &&& (TOUCH_CLIENT_ID ||| TOUCH_REPLAYING) ≠ 0 then
      { state := ti, diag := false, stored := none }
    else
      let buf' := buf.set ti.history_elements ev
      let n := ti.history_elements + 1
      if n > ti.history_size - 1 then
        { state := { ti with history := some buf',
                             history_elements := ti.history_size - 1 },
          diag := true, stored := some ti.history_elements }
      else
        { state := { ti with history := some buf', history_elements := n },
          diag := false, stored := some ti.history_elements }

/-- The events the history currently "contains": the first
`history_elements` entries of the allocated buffer. -/
def countedHistory (ti : TouchPointInfo) : List DeviceEvent :=
  match ti.history with
  | none => []
  | some buf => buf.take ti.history_elements

/-- `TouchEventHistoryReplay` (`touch.c` 477-508), modelled as the list of
outbound synthetic events it regenerates (delivery is an external
collaborator's job, marked FIXME in the source). A NULL history yields no
events. Otherwise a synthetic touch-begin is built by `GetTouchEvents`
from a mask holding `ti->history[0].valuators.data[0]` and `.data[1]`,
with flags `TOUCH_CLIENT_ID|TOUCH_REPLAYING` plus `TOUCH_POINTER_EMULATED`
when `ti->emulate_pointer`; then the stored events at indices
`1 ≤ i < history_elements` follow, each with `TOUCH_REPLAYING` or-ed into
its flags. -/
def TouchEventHistoryReplay (ti : TouchPointInfo) : List DeviceEvent :=
  match ti.history with
  | none => []
  | some buf =>
    let h0 := buf.getD 0 zeroEvent
    let maskData : List Int := [h0.data.getD 0 0, h0.data.getD 1 0]
    let flags :=
      (TOUCH_CLIENT_ID ||| TOUCH_REPLAYING) |||
        (if ti.emulate_pointer then TOUCH_POINTER_EMULATED else 0)
    let fakeBegin : DeviceEvent :=
      { type := EvType.ET_TouchBegin, flags := flags, data := maskData,
        root_x := 0, root_y := 0 }
    fakeBegin ::
      ((buf.take ti.history_elements).drop 1).map
        (fun ev => { ev with flags := ev.flags ||| TOUCH_REPLAYING })

/-! ## Driver-facing (DDX) touch registry -/

/-- Device touch mode (`t->mode`): `XIDirectTouch` or dependent. -/
inductive TouchMode where
  | XIDirectTouch
  | XIDependentTouch
deriving DecidableEq, Repr

/-- The fields of the C `TouchClassRec` that `touch.c` uses: the device
mode, the protocol-facing touch table `touches` (length = `num_touches`),
and `buttonsDown`. -/
structure TouchClass where
  mode : TouchMode
  touches : List TouchPointInfo
  buttonsDown : Nat
deriving DecidableEq, Repr

/-- The fields of the C `DDXTouchPointInfoRec` that `touch.c` uses. -/
structure DDXTouchPointInfo where
  active : Bool
  ddx_id : Nat
  client_id : Nat
  emulate_pointer : Bool
  valuators : Option ValuatorMask
deriving DecidableEq, Repr

/-- The fields of the C `DeviceIntRec` that `touch.c` uses: `dev->touch`
(NULL modelled as `none`), the driver-facing table `dev->last.touches`
(length = `dev->last.num_touches`), this device's bit of the
`resize_waiting` bitmap, and `dev->valuator->numAxes`. -/
structure DeviceInt where
  touch : Option TouchClass
  last_touches : List DDXTouchPointInfo
  resize_waiting : Bool
  numAxes : Nat
deriving DecidableEq, Repr

/-- `TouchInitDDXTouchPoint` (`touch.c` 221-226): `memset` to zero, then a
fresh valuator mask. -/
def TouchInitDDXTouchPoint (numAxes : Nat) : DDXTouchPointInfo :=
  { active := false, ddx_id := 0, client_id := 0, emulate_pointer := false,
    valuators := some (freshMask numAxes) }

/-- The scan loop of `TouchFindByDDXID` (`touch.c` 134-139): index of the
first slot with `ti->active && ti->ddx_id == ddx_id`. -/
def findActiveDDXID : List DDXTouchPointInfo → Nat → Option Nat
  | [], _ => none
  | s :: rest, ddx_id =>
    if s.active && s.ddx_id == ddx_id then some 0
    else (findActiveDDXID rest ddx_id).map (· + 1)

/-- Outcome of running a piece of C code that may read through NULL. -/
inductive CResult (α : Type) where
  | ok : α → CResult α
  | nullDeref : CResult α
deriving DecidableEq, Repr

/-- The slot-search loop of `TouchBeginDDXTouch` (`touch.c` 171-181):
walks the slots carrying the mutable `emulate_pointer` flag and the
first-inactive-slot pointer `ti` (as an index), breaking as soon as
`!emulate_pointer && ti`. Returns the final `(emulate_pointer, ti)`. -/
def ddxScan : List DDXTouchPointInfo → Bool → Option Nat → Nat →
    Bool × Option Nat
  | [], ep, ti, _ => (ep, ti)
  | s :: rest, ep, ti, i =>
    let ep' := if s.active then false else ep
    let ti' := if s.active then ti else if ti.isNone then some i else ti
    if !ep' && ti'.isSome then (ep', ti')
    else ddxScan rest ep' ti' (i + 1)

/-- The client-id counter update in `TouchBeginDDXTouch` (`touch.c`
188-191): post-increment with 32-bit wraparound, skipping 0. -/
def nextClientIdStep (c : Nat) : Nat :=
  let n := (c + 1) % 2 ^ 32
  if n = 0 then 1 else n

/-- `TouchBeginDDXTouch` (`touch.c` 154-208). The static
`next_client_id` counter is threaded explicitly. The returned value on
success is the updated counter, the updated device, and the index of the
slot activated (`none` models a NULL return). The initializer
`Bool emulate_pointer = (t->mode == XIDirectTouch)` dereferences `t`
before the `if (!t)` guard, so a device without a touch class yields
`CResult.nullDeref`; the subsequent guard is kept (dead) for fidelity. -/
def TouchBeginDDXTouch (next_client_id : Nat) (dev : DeviceInt)
    (ddx_id : Nat) : CResult (Nat × DeviceInt × Option Nat) :=
  match dev.touch with
  | none => CResult.nullDeref
  | some t =>
    let emulate_pointer := t.mode = TouchMode.XIDirectTouch
    if dev.touch.isNone then CResult.ok (next_client_id, dev, none)
    else if (findActiveDDXID dev.last_touches ddx_id).isSome then
      CResult.ok (next_client_id, dev, none)
    else
      match ddxScan dev.last_touches emulate_pointer none 0 with
      | (ep, some i) =>
        let client_id := next_client_id
        let slot :=
          match dev.last_touches[i]? with
          | some s => { s with active := true, ddx_id := ddx_id,
                               client_id := client_id,
                               emulate_pointer := ep }
          | none => { active := true, ddx_id := ddx_id,
                      client_id := client_id, emulate_pointer := ep,
                      valuators := none }
        CResult.ok (nextClientIdStep next_client_id,
          { dev with last_touches := dev.last_touches.set i slot }, some i)
      | (_, none) =>
        CResult.ok (next_client_id,
          { dev with resize_waiting := true }, none)

/-- `TouchFindByDDXID` (`touch.c` 125-142): NULL touch class yields NULL;
otherwise the scan, delegating to `TouchBeginDDXTouch` when `create` is
set and no active slot matches. On the create path the result is the
full begin outcome. -/
def TouchFindByDDXID (next_client_id : Nat) (dev : DeviceInt)
    (ddx_id : Nat) (create : Bool) : CResult (Nat × DeviceInt × Option Nat) :=
  match dev.touch with
  | none => CResult.ok (next_client_id, dev, none)
  | some _ =>
    match findActiveDDXID dev.last_touches ddx_id with
    | some i => CResult.ok (next_client_id, dev, some i)
    | none =>
      if create then TouchBeginDDXTouch next_client_id dev ddx_id
      else CResult.ok (next_client_id, dev, none)

/-- `TouchEndDDXTouch` (`touch.c` 210-219): no-op on a NULL touch class,
otherwise deactivates the slot at index `i`. -/
def TouchEndDDXTouch (dev : DeviceInt) (i : Nat) : DeviceInt :=
  match dev.touch with
  | none => dev
  | some _ =>
    match dev.last_touches[i]? with
    | none => dev
    | some s =>
      { dev with last_touches := dev.last_touches.set i { s with active := false } }

/-- The per-device growth step of `TouchResizeQueue` (`touch.c` 97-109):
new capacity `num + num/2 + 1`; on `realloc` success the old slots are
preserved and every added slot is initialized by
`TouchInitDDXTouchPoint`; on failure nothing changes. -/
def TouchResizeQueueGrow (reallocOk : Bool) (dev : DeviceInt) : DeviceInt :=
  let num := dev.last_touches.length
  let size := num + num / 2 + 1
  if reallocOk then
    { dev with last_touches :=
        dev.last_touches ++
          List.replicate (size - num) (TouchInitDDXTouchPoint dev.numAxes) }
  else dev

/-! ## Protocol-facing touch-point registry -/

/-- `TouchInitTouchPoint` (`touch.c` 229-258), acting on the table at
`index`. `maskOk` / `traceOk` model the success of `valuator_mask_new`
and of the sprite-trace `calloc`. The C code memsets the slot first, so a
failed allocation still leaves the slot zeroed (with the mask freed again
on trace failure); `root` is `screenInfo.screens[0]->root` and
`client_id = -1` stores as `2^32 - 1` in the `uint32_t` field. Returns
the updated table and the C `Bool` result. -/
def clientIdSentinel : Nat := 2 ^ 32 - 1

/-- See `clientIdSentinel`; this is the function itself. -/
def TouchInitTouchPoint (maskOk traceOk : Bool) (root numAxes : Nat)
    (touches : List TouchPointInfo) (index : Nat) :
    List TouchPointInfo × Bool :=
  if index ≥ touches.length then (touches, false)
  else
    let ti := zeroTouchPoint
    if !maskOk then (touches.set index ti, false)
    else
      let ti := { ti with valuators := some (freshMask numAxes) }
      if !traceOk then (touches.set index { ti with valuators := none }, false)
      else
        let ti := { ti with
          sprite := { spriteTrace := root :: List.replicate 31 0,
                      spriteTraceSize := 32, spriteTraceGood := 0 },
          client_id := clientIdSentinel }
        (touches.set index ti, true)

/-- The scan loop of `TouchFindByClientID` (`touch.c` 297-302): index of
the first slot with `ti->active && ti->client_id == client_id`. -/
def findActiveClientID : List TouchPointInfo → Nat → Option Nat
  | [], _ => none
  | s :: rest, client_id =>
    if s.active && s.client_id == client_id then some 0
    else (findActiveClientID rest client_id).map (· + 1)

/-- `TouchFindByClientID` (`touch.c` 287-305). -/
def TouchFindByClientID (dev : DeviceInt) (client_id : Nat) : Option Nat :=
  match dev.touch with
  | none => none
  | some t => findActiveClientID t.touches client_id

/-- The `try_find_touch` scan of `TouchBeginTouch` (`touch.c` 336-346):
index of the first slot with `!ti->active`. -/
def findInactiveTouch : List TouchPointInfo → Option Nat
  | [] => none
  | s :: rest =>
    if !s.active then some 0 else (findInactiveTouch rest).map (· + 1)

/-- The growth step of `TouchBeginTouch` (`touch.c` 348-357): `realloc`
to `num_touches + 1` slots (the added slot is uninitialized memory,
modelled as `zeroTouchPoint` since `TouchInitTouchPoint` memsets it before
any read), bump `num_touches`, then `TouchInitTouchPoint` on the new last
slot. Returns the new table and whether the init succeeded; a failed
`realloc` leaves the table untouched. -/
def touchTableGrow (reallocOk maskOk traceOk : Bool) (root numAxes : Nat)
    (touches : List TouchPointInfo) : List TouchPointInfo × Bool :=
  if reallocOk then
    let touches' := touches ++ [zeroTouchPoint]
    TouchInitTouchPoint maskOk traceOk root numAxes touches'
      (touches'.length - 1)
  else (touches, false)

/-- Activation of a scanned slot in `TouchBeginTouch` (`touch.c`
339-344). -/
def activateTouch (touches : List TouchPointInfo) (i : Nat)
    (sourceid touchid : Nat) (emulate_pointer : Bool) :
    List TouchPointInfo :=
  match touches[i]? with
  | none => touches
  | some s =>
    touches.set i { s with active := true, client_id := touchid,
                           sourceid := sourceid,
                           emulate_pointer := emulate_pointer }

/-- `TouchBeginTouch` (`touch.c` 315-360). Fails on a NULL touch class or
an already-active `touchid`; otherwise activates the first inactive slot.
If none exists, grows the table by one slot, initializes it, and retries
the scan (the `goto try_find_touch`); a failed growth yields NULL.
Returns the updated device and the activated index (`none` = NULL). -/
def TouchBeginTouch (reallocOk maskOk traceOk : Bool) (root : Nat)
    (dev : DeviceInt) (sourceid touchid : Nat) (emulate_pointer : Bool) :
    DeviceInt × Option Nat :=
  match dev.touch with
  | none => (dev, none)
  | some t =>
    if (TouchFindByClientID dev touchid).isSome then (dev, none)
    else
      match findInactiveTouch t.touches with
      | some i =>
        ({ dev with touch := some { t with
             touches := activateTouch t.touches i sourceid touchid
               emulate_pointer } }, some i)
      | none =>
        let (touches', ok) :=
          touchTableGrow reallocOk maskOk traceOk root dev.numAxes t.touches
        if ok then
          match findInactiveTouch touches' with
          | some i =>
            ({ dev with touch := some { t with
                 touches := activateTouch touches' i sourceid touchid
                   emulate_pointer } }, some i)
          | none =>
            ({ dev with touch := some { t with touches := touches' } }, none)
        else
          ({ dev with touch := some { t with touches := touches' } }, none)

/-- The grab-related device state read by `TouchEndTouch` (`touch.c`
370-389): whether `dev->deviceGrab.grab` is non-NULL,
`dev->deviceGrab.fromPassiveGrab`, the external predicate
`GrabIsPointerGrab(grab)`, and the two `buttonsDown` counters. -/
structure PointerState where
  grabActive : Bool
  fromPassiveGrab : Bool
  isPointerGrab : Bool
  buttonsDown : Nat
  touchButtonsDown : Nat
deriving DecidableEq, Repr

/-- `TouchEndTouch` (`touch.c` 367-403). `updateDeviceState` models the
external `UpdateDeviceState(dev, &ev)` call (applied to the pointer state
only when `ti->emulate_pointer`); the returned `Bool` records whether
`(*dev->deviceGrab.DeactivateGrab)(dev)` was invoked. The touch point is
reset: inactive, `pending_finish` cleared, sprite trace invalidated,
listeners freed, `client_id` zeroed, history freed, valuator mask
zeroed in place. -/
def TouchEndTouch (updateDeviceState : PointerState → PointerState)
    (ps : PointerState) (ti : TouchPointInfo) :
    PointerState × TouchPointInfo × Bool :=
  let (ps', deactivated) :=
    if ti.emulate_pointer then
      let ps' := updateDeviceState ps
      if ps'.grabActive then
        (ps', ps'.fromPassiveGrab && ps'.buttonsDown == 0 &&
              ps'.touchButtonsDown == 0 && ps'.isPointerGrab)
      else (ps', false)
    else (ps, false)
  let ti' := { ti with
    active := false, pending_finish := false,
    sprite := { ti.sprite with spriteTraceGood := 0 },
    listeners := none, num_listeners := 0, num_grabs := 0,
    client_id := 0 }
  let ti' := TouchEventHistoryFree ti'
  let ti' := { ti' with valuators := ti.valuators.map maskZero }
  (ps', ti', deactivated)

/-! ## Sprite-trace resolution -/

/-- `TouchBuildDependentSpriteTrace` (`touch.c` 510-547): pick a donor
sprite (first touch with `spriteTraceGood > 0`, else the device sprite
`dev->spriteInfo->sprite`, modelled as `devSprite`); grow the destination
trace storage when the donor's `spriteTraceGood` exceeds it (`realloc` to
`srcsprite->spriteTraceSize` entries but recording
`srcsprite->spriteTraceGood` as the new size, exactly as the source
does); `memcpy` the donor's good entries; a failed `realloc` zeroes
`spriteTraceGood` and fails. -/
def TouchBuildDependentSpriteTrace (reallocOk : Bool) (t : TouchClass)
    (devSprite : Option Sprite) (sprite : Sprite) : Sprite × Bool :=
  let srcsprite? : Option Sprite :=
    match t.touches.find? (fun tp => 0 < tp.sprite.spriteTraceGood) with
    | some tp => some tp.sprite
    | none => devSprite
  match srcsprite? with
  | none => (sprite, false)
  | some src =>
    let (sprite, ok) :=
      if src.spriteTraceGood > sprite.spriteTraceSize then
        if reallocOk then
          ({ sprite with
               spriteTrace :=
                 (sprite.spriteTrace ++
                   List.replicate
                     (src.spriteTraceSize - sprite.spriteTrace.length) 0).take
                   src.spriteTraceSize,
               spriteTraceSize := src.spriteTraceGood }, true)
        else ({ sprite with spriteTraceGood := 0 }, false)
      else (sprite, true)
    if !ok then (sprite, false)
    else
      ({ sprite with
           spriteTrace :=
             src.spriteTrace.take src.spriteTraceGood ++
               sprite.spriteTrace.drop src.spriteTraceGood,
           spriteTraceGood := src.spriteTraceGood }, true)

/-- `TouchEnsureSprite` (`touch.c` 553-595). `xyToWindow` models the
external `XYToWindow` hit-test, `hotRoot` models
`sourcedev->spriteInfo->sprite->hotPhys.pScreen->root`, `devSprite` the
device pointer sprite used as the dependent-mode fallback donor, and
`listenersOk` the success of the listener-array `calloc`. A touch-end
event succeeds immediately; any other non-begin event succeeds iff
`spriteTraceGood > 0`; a begin recomputes the trace (dereferencing
`sourcedev->touch`, hence `CResult`). -/
def TouchEnsureSprite (xyToWindow : Sprite → Int → Int → Sprite)
    (reallocOk listenersOk : Bool) (sourcedev : DeviceInt)
    (devSprite : Option Sprite) (hotRoot : Nat) (ti : TouchPointInfo)
    (ev : DeviceEvent) : CResult (TouchPointInfo × Bool) :=
  if ev.type = EvType.ET_TouchEnd then CResult.ok (ti, true)
  else if ev.type ≠ EvType.ET_TouchBegin then
    CResult.ok (ti, decide (ti.sprite.spriteTraceGood > 0))
  else
    match sourcedev.touch with
    | none => CResult.nullDeref
    | some t =>
      let (sprite', ok) :=
        if t.mode = TouchMode.XIDirectTouch then
          (xyToWindow
            { ti.sprite with spriteTrace := ti.sprite.spriteTrace.set 0 hotRoot }
            ev.root_x ev.root_y, true)
        else
          TouchBuildDependentSpriteTrace reallocOk t devSprite ti.sprite
      if !ok then CResult.ok ({ ti with sprite := sprite' }, false)
      else if sprite'.spriteTraceGood ≤ 0 then
        CResult.ok ({ ti with sprite := sprite' }, false)
      else if !listenersOk then
        CResult.ok ({ ti with
          sprite := { sprite' with spriteTraceGood := 0 } }, false)
      else
        CResult.ok ({ ti with
          sprite := sprite'
          listeners := some (sprite'.spriteTraceGood + 1)
          num_listeners := 0 }, true)

/-! ## Operation sequences over the two registries -/

/-- One call into the driver-facing registry. -/
inductive DDXOp where
  | beginOp (ddx_id : Nat)
  | endOp (i : Nat)
deriving DecidableEq, Repr

/-- Run state for driver-facing sequences: the explicit `next_client_id`
static, the device, and the (ghost) trace of client ids assigned so far. -/
structure DDXRun where
  next_client_id : Nat
  dev : DeviceInt
  assigned : List Nat
deriving DecidableEq, Repr

/-- Execute one driver-facing call. -/
def ddxStep (s : DDXRun) (op : DDXOp) : DDXRun :=
  match op with
  | DDXOp.beginOp ddx_id =>
    match TouchBeginDDXTouch s.next_client_id s.dev ddx_id with
    | CResult.nullDeref => s
    | CResult.ok (n', dev', r) =>
      { next_client_id := n', dev := dev',
        assigned := s.assigned ++
          (match r with
           | some _ => [s.next_client_id]
           | none => []) }
  | DDXOp.endOp i =>
    { s with dev := TouchEndDDXTouch s.dev i }

/-- A fresh device as the server sets it up: a touch class in the given
mode, `n` driver-facing slots initialized by `TouchInitDDXTouchPoint`,
an empty protocol-facing table, the resize bit clear. -/
def freshDevice (mode : TouchMode) (n numAxes : Nat) : DeviceInt :=
  { touch := some { mode := mode, touches := [], buttonsDown := 0 },
    last_touches := List.replicate n (TouchInitDDXTouchPoint numAxes),
    resize_waiting := false, numAxes := numAxes }

/-- Run a driver-facing call sequence from the fresh state
(`next_client_id` statically initialized to 1). -/
def ddxRun (mode : TouchMode) (n numAxes : Nat) (ops : List DDXOp) : DDXRun :=
  ops.foldl ddxStep
    { next_client_id := 1, dev := freshDevice mode n numAxes, assigned := [] }

/-- One call into the protocol-facing registry (allocation outcomes for a
begin are part of the call). -/
inductive ProtoOp where
  | beginOp (reallocOk maskOk traceOk : Bool) (root sourceid touchid : Nat)
      (emulate_pointer : Bool)
  | endOp (i : Nat)
deriving DecidableEq, Repr

/-- Execute one protocol-facing call on the device. `TouchEndTouch` is
applied to the slot at index `i` (its pointer-state side effects are not
part of the table). -/
def protoStep (dev : DeviceInt) (op : ProtoOp) : DeviceInt :=
  match op with
  | ProtoOp.beginOp reallocOk maskOk traceOk root sourceid touchid ep =>
    (TouchBeginTouch reallocOk maskOk traceOk root dev sourceid touchid ep).1
  | ProtoOp.endOp i =>
    match dev.touch with
    | none => dev
    | some t =>
      match t.touches[i]? with
      | none => dev
      | some tp =>
        let tp' := (TouchEndTouch id
          { grabActive := false, fromPassiveGrab := false,
            isPointerGrab := false, buttonsDown := 0,
            touchButtonsDown := 0 } tp).2.1
        { dev with touch := some { t with touches := t.touches.set i tp' } }

/-- Run a protocol-facing call sequence from the fresh state. -/
def protoRun (mode : TouchMode) (n numAxes : Nat) (ops : List ProtoOp) :
    DeviceInt :=
  ops.foldl protoStep (freshDevice mode n numAxes)

/-- Uniqueness of `ddx_id` among active driver-facing slots. -/
def DDXUnique (l : List DDXTouchPointInfo) : Prop :=
  ∀ (i j : Nat) (a b : DDXTouchPointInfo), i ≠ j →
    l[i]? = some a → l[j]? = some b →
    a.active = true → b.active = true → a.ddx_id ≠ b.ddx_id

/-- Uniqueness of `client_id` among active protocol-facing touch points. -/
def ClientUnique (l : List TouchPointInfo) : Prop :=
  ∀ (i j : Nat) (a b : TouchPointInfo), i ≠ j →
    l[i]? = some a → l[j]? = some b →
    a.active = true → b.active = true → a.client_id ≠ b.client_id

/-- The active `client_id`s of the device's protocol-facing table
(empty for a NULL touch class). -/
def protoTouches (dev : DeviceInt) : List TouchPointInfo :=
  match dev.touch with
  | none => []
  | some t => t.touches

/-! ## Theorems -/

/-- C10: for every device whose touch class is absent, the driver-facing
begin operation reads the touch class's `mode` field (in the initializer
of `emulate_pointer`) before the `if (!t)` guard is tested, so the call
faults on the NULL dereference instead of reaching the guard's clean
failure return: the whole call evaluates to the null-dereference outcome,
never to `CResult.ok`. -/
theorem TouchBeginDDXTouch_reads_mode_before_null_guard
    (next_client_id : Nat) (dev : DeviceInt) (ddx_id : Nat)
    (h : dev.touch = none) :
    TouchBeginDDXTouch next_client_id dev ddx_id = CResult.nullDeref := by
  unfold TouchBeginDDXTouch
  rw [h]

/-- Witness for `TouchBeginDDXTouch_reads_mode_before_null_guard`. -/
theorem TouchBeginDDXTouch_reads_mode_before_null_guard_witness :
    TouchBeginDDXTouch 1
      { touch := none, last_touches := [], resize_waiting := false,
        numAxes := 2 } 7 = CResult.nullDeref :=
  TouchBeginDDXTouch_reads_mode_before_null_guard 1
    { touch := none, last_touches := [], resize_waiting := false,
      numAxes := 2 } 7 rfl

/-- C8: `TouchEnsureSprite` on a touch-end event always succeeds and
leaves the touch point (hence its sprite trace) unmodified, whatever the
touch point's state; on any event that is neither a begin nor an end it
leaves the touch point unmodified and succeeds iff the existing trace has
at least one valid entry (`spriteTraceGood > 0`). -/
theorem TouchEnsureSprite_end_and_motion
    (xy : Sprite → Int → Int → Sprite) (rOk lOk : Bool)
    (dev : DeviceInt) (ds : Option Sprite) (hr : Nat)
    (ti : TouchPointInfo) (ev : DeviceEvent) :
    (ev.type = EvType.ET_TouchEnd →
      TouchEnsureSprite xy rOk lOk dev ds hr ti ev = CResult.ok (ti, true)) ∧
    (ev.type ≠ EvType.ET_TouchBegin → ev.type ≠ EvType.ET_TouchEnd →
      TouchEnsureSprite xy rOk lOk dev ds hr ti ev =
        CResult.ok (ti, decide (ti.sprite.spriteTraceGood > 0))) := by
  constructor
  · intro h
    unfold TouchEnsureSprite
    rw [h]
    simp
  · intro hb he
    unfold TouchEnsureSprite
    simp [hb, he]

/-- Witness for `TouchEnsureSprite_end_and_motion`: a concrete end event
and a concrete update event on a concrete touch point. -/
theorem TouchEnsureSprite_end_and_motion_witness :
    TouchEnsureSprite (fun s _ _ => s) true true
        { touch := none, last_touches := [], resize_waiting := false,
          numAxes := 2 } none 1 zeroTouchPoint
        { type := EvType.ET_TouchEnd, flags := 0, data := [], root_x := 0,
          root_y := 0 } = CResult.ok (zeroTouchPoint, true) ∧
    TouchEnsureSprite (fun s _ _ => s) true true
        { touch := none, last_touches := [], resize_waiting := false,
          numAxes := 2 } none 1 zeroTouchPoint
        { type := EvType.ET_TouchUpdate, flags := 0, data := [], root_x := 0,
          root_y := 0 } =
      CResult.ok (zeroTouchPoint,
        decide (zeroTouchPoint.sprite.spriteTraceGood > 0)) :=
  ⟨(TouchEnsureSprite_end_and_motion (fun s _ _ => s) true true
      { touch := none, last_touches := [], resize_waiting := false,
        numAxes := 2 } none 1 zeroTouchPoint
      { type := EvType.ET_TouchEnd, flags := 0, data := [], root_x := 0,
        root_y := 0 }).1 rfl,
   (TouchEnsureSprite_end_and_motion (fun s _ _ => s) true true
      { touch := none, last_touches := [], resize_waiting := false,
        numAxes := 2 } none 1 zeroTouchPoint
      { type := EvType.ET_TouchUpdate, flags := 0, data := [], root_x := 0,
        root_y := 0 }).2 (by decide) (by decide)⟩

/-- Concrete pointer state for the C7 counterexample: an active grab from
a passive grab, with no buttons or touches down, but the grab is not a
pointer grab (`GrabIsPointerGrab` is false). -/
def c7PointerState : PointerState :=
  { grabActive := true, fromPassiveGrab := true, isPointerGrab := false,
    buttonsDown := 0, touchButtonsDown := 0 }

/-- Concrete touch point for the C7 counterexample: active with
`emulate_pointer` set. -/
def c7Touch : TouchPointInfo :=
  { zeroTouchPoint with active := true, emulate_pointer := true,
                        client_id := 5 }

/-- C7 counterexample: an end on a pointer-emulated touch with an active
grab that came from a passive grab and no buttons or touches down does
NOT deactivate the grab when the grab is not a pointer grab
(`GrabIsPointerGrab(grab)` is a fourth conjunct of the condition at
`touch.c` 383-386 that the claim omits). `UpdateDeviceState` is the
identity here, so the conditions hold in the state the code tests. -/
theorem TouchEndTouch_no_deactivation_counterexample :
    c7Touch.emulate_pointer = true ∧
    c7PointerState.grabActive = true ∧
    c7PointerState.fromPassiveGrab = true ∧
    c7PointerState.buttonsDown = 0 ∧
    c7PointerState.touchButtonsDown = 0 ∧
    (TouchEndTouch id c7PointerState c7Touch).2.2 = false := by
  decide

/-- C7 as amended: when end is called on a protocol-facing touch point
whose `emulate_pointer` flag is set, if (after the pointer-emulated
device-state update) the device has an active grab that originated from a
passive grab, no buttons or touches remain down anywhere on the device,
and the grab is a pointer grab, then that grab is deactivated. -/
theorem TouchEndTouch_deactivates_passive_pointer_grab
    (f : PointerState → PointerState) (ps : PointerState)
    (ti : TouchPointInfo) (hep : ti.emulate_pointer = true)
    (hg : (f ps).grabActive = true)
    (hp : (f ps).fromPassiveGrab = true)
    (hb : (f ps).buttonsDown = 0)
    (ht : (f ps).touchButtonsDown = 0)
    (hpg : (f ps).isPointerGrab = true) :
    (TouchEndTouch f ps ti).2.2 = true := by
  unfold TouchEndTouch
  simp [hep, hg, hp, hb, ht, hpg]

/-- Witness for `TouchEndTouch_deactivates_passive_pointer_grab`. -/
theorem TouchEndTouch_deactivates_passive_pointer_grab_witness :
    (TouchEndTouch id
      { grabActive := true, fromPassiveGrab := true, isPointerGrab := true,
        buttonsDown := 0, touchButtonsDown := 0 } c7Touch).2.2 = true :=
  TouchEndTouch_deactivates_passive_pointer_grab id
    { grabActive := true, fromPassiveGrab := true, isPointerGrab := true,
      buttonsDown := 0, touchButtonsDown := 0 } c7Touch
    (by decide) rfl rfl rfl rfl rfl

/-- C2: a `begin` with an id that is already active on the device returns
failure (NULL) and leaves the whole device state — every slot, active or
inactive, the resize bit, and the client-id counter — completely
unmodified, for both the driver-facing and the protocol-facing registry. -/
theorem begin_duplicate_is_noop
    (next_client_id : Nat) (dev : DeviceInt) (ddx_id : Nat) (t : TouchClass)
    (rOk mOk tOk : Bool) (root sourceid touchid : Nat) (ep : Bool)
    (ht : dev.touch = some t)
    (hdup : (findActiveDDXID dev.last_touches ddx_id).isSome = true)
    (hdup2 : (TouchFindByClientID dev touchid).isSome = true) :
    TouchBeginDDXTouch next_client_id dev ddx_id =
      CResult.ok (next_client_id, dev, none) ∧
    TouchBeginTouch rOk mOk tOk root dev sourceid touchid ep = (dev, none) := by
  constructor
  · unfold TouchBeginDDXTouch
    rw [ht]
    simp [ht, hdup]
  · unfold TouchBeginTouch
    rw [ht]
    simp [hdup2]

/-- Witness for `begin_duplicate_is_noop`: a device with one active
driver slot of `ddx_id = 7` and one active protocol touch point of
`client_id = 9`. -/
def c2TouchClass : TouchClass :=
  { mode := TouchMode.XIDirectTouch
    touches := [{ zeroTouchPoint with active := true, client_id := 9 }]
    buttonsDown := 0 }

/-- The single active driver-facing slot of `c2Device`. -/
def c2DDXSlot : DDXTouchPointInfo :=
  { active := true
    ddx_id := 7
    client_id := 3
    emulate_pointer := false
    valuators := some (freshMask 2) }

/-- See `begin_duplicate_is_noop_witness`. -/
def c2Device : DeviceInt :=
  { touch := some c2TouchClass
    last_touches := [c2DDXSlot]
    resize_waiting := false
    numAxes := 2 }

/-- Closed instantiation of `begin_duplicate_is_noop` at `c2Device`. -/
theorem begin_duplicate_is_noop_witness :
    TouchBeginDDXTouch 4 c2Device 7 = CResult.ok (4, c2Device, none) ∧
    TouchBeginTouch true true true 1 c2Device 0 9 false = (c2Device, none) :=
  begin_duplicate_is_noop 4 c2Device 7 c2TouchClass
    true true true 1 0 9 false rfl
    (by simp [c2Device, c2DDXSlot, findActiveDDXID])
    (by simp [TouchFindByClientID, c2Device, c2TouchClass, findActiveClientID])

/-! ### History invariants (C4, C5) -/

/-- Whether an event is a touch-begin record. -/
def isBeginEv (e : DeviceEvent) : Bool := e.type == EvType.ET_TouchBegin

/-- The C4 invariant: the history holds at most one begin record and no
end record. -/
def HistInv (ti : TouchPointInfo) : Prop :=
  (countedHistory ti).countP isBeginEv ≤ 1 ∧
  ∀ e ∈ countedHistory ti, e.type ≠ EvType.ET_TouchEnd

theorem take_set_of_le {α : Type} (l : List α) (n m : Nat) (a : α)
    (h : n ≤ m) : (l.set m a).take n = l.take n := by
  rw [List.set_take]
  apply List.set_eq_of_length_le
  exact le_trans (List.length_take_le n l) h

theorem take_succ_set {α : Type} : ∀ (l : List α) (n : Nat) (a : α),
    n < l.length → (l.set n a).take (n + 1) = l.take n ++ [a]
  | [], _, _, h => absurd h (by simp)
  | _ :: _, 0, _, _ => by simp
  | x :: xs, n + 1, a, h => by
    have ih := take_succ_set xs n a (by simpa using h)
    show x :: (xs.set n a).take (n + 1) = x :: xs.take n ++ [a]
    rw [ih]
    rfl

/-- Case characterization of `TouchEventHistoryPush`: either it is a
rejection (state unchanged) or it stores a non-end event (a begin only at
element count zero) and either clamps or increments the count. -/
theorem push_state_cases (ti : TouchPointInfo) (ev : DeviceEvent) :
    (TouchEventHistoryPush ti ev).state = ti ∨
    ∃ buf, ti.history = some buf ∧ ev.type ≠ EvType.ET_TouchEnd ∧
      (ev.type = EvType.ET_TouchBegin → ti.history_elements = 0) ∧
      ((ti.history_size - 1 ≤ ti.history_elements ∧
        (TouchEventHistoryPush ti ev).state =
          { ti with history := some (buf.set ti.history_elements ev),
                    history_elements := ti.history_size - 1 }) ∨
       (ti.history_elements + 1 ≤ ti.history_size - 1 ∧
        (TouchEventHistoryPush ti ev).state =
          { ti with history := some (buf.set ti.history_elements ev),
                    history_elements := ti.history_elements + 1 })) := by
  unfold TouchEventHistoryPush
  cases hh : ti.history with
  | none => exact Or.inl rfl
  | some buf =>
    dsimp only
    split
    · exact Or.inl rfl
    case isFalse hrej =>
      split
      · exact Or.inl rfl
      case isFalse hfl =>
        have hend : ev.type ≠ EvType.ET_TouchEnd := by
          intro habs
          rw [habs] at hrej
          simp at hrej
        have hbeg : ev.type = EvType.ET_TouchBegin →
            ti.history_elements = 0 := by
          intro hb
          rw [hb] at hrej
          simpa using hrej
        split
        case isTrue hoverflow =>
          exact Or.inr ⟨buf, rfl, hend, hbeg, Or.inl ⟨by omega, rfl⟩⟩
        case isFalse hoverflow =>
          exact Or.inr ⟨buf, rfl, hend, hbeg, Or.inr ⟨by omega, rfl⟩⟩

/-- Pushing any event preserves the history invariant. -/
theorem push_preserves_HistInv (ti : TouchPointInfo) (ev : DeviceEvent)
    (h : HistInv ti) : HistInv (TouchEventHistoryPush ti ev).state := by
  obtain ⟨h1, h2⟩ := h
  rcases push_state_cases ti ev with heq | ⟨buf, hh, hend, hbeg, hcase⟩
  · rw [heq]; exact ⟨h1, h2⟩
  · have hcounted : countedHistory ti = buf.take ti.history_elements := by
      unfold countedHistory; rw [hh]
    rcases hcase with ⟨hle, heq⟩ | ⟨hlt, heq⟩
    · -- clamped: the new counted history is a prefix of the old one
      rw [heq]
      have hc : countedHistory
          { ti with history := some (buf.set ti.history_elements ev),
                    history_elements := ti.history_size - 1 } =
          (countedHistory ti).take (ti.history_size - 1) := by
        unfold countedHistory
        rw [hh]
        dsimp only
        rw [take_set_of_le buf _ _ ev hle, List.take_take,
          Nat.min_eq_left hle]
      rw [HistInv, hc]
      constructor
      · exact le_trans ((List.take_sublist _ _).countP_le isBeginEv) h1
      · intro e he
        exact h2 e (List.mem_of_mem_take he)
    · -- stored without clamping
      rw [heq]
      have hc : countedHistory
          { ti with history := some (buf.set ti.history_elements ev),
                    history_elements := ti.history_elements + 1 } =
          (buf.set ti.history_elements ev).take (ti.history_elements + 1) := by
        unfold countedHistory
        dsimp only
      rw [HistInv, hc]
      by_cases hlen : ti.history_elements < buf.length
      · rw [take_succ_set buf _ ev hlen, ← hcounted]
        constructor
        · rw [List.countP_append]
          by_cases hb : ev.type = EvType.ET_TouchBegin
          · have he0 : ti.history_elements = 0 := hbeg hb
            have hnil : countedHistory ti = [] := by
              rw [hcounted, he0, List.take_zero]
            rw [hnil]
            simp only [List.countP_nil, Nat.zero_add]
            cases hbe : isBeginEv ev <;> simp [List.countP_cons, hbe]
          · have hbe : isBeginEv ev = false := by
              unfold isBeginEv
              simpa using hb
            simpa [List.countP_cons, hbe] using h1
        · intro e he
          rcases List.mem_append.mp he with he | he
          · exact h2 e he
          · rw [List.mem_singleton.mp he]
            exact hend
      · have hge : buf.length ≤ ti.history_elements := Nat.le_of_not_lt hlen
        rw [List.set_eq_of_length_le hge,
          List.take_of_length_le (le_trans hge (Nat.le_succ _))]
        have hbuf : countedHistory ti = buf := by
          rw [hcounted, List.take_of_length_le hge]
        rw [← hbuf]
        exact ⟨h1, h2⟩

/-- C4: for every interleaving of history push calls from any state
satisfying the invariant (in particular from a freshly allocated or
history-less touch point), the history never contains more than one begin
record and never contains an end record; moreover a push of an end event,
of an event flagged client-id-carrying or replaying, of a begin when the
element count is nonzero, or of any type other than begin/update stores
nothing and leaves the touch point unmodified. -/
theorem history_push_invariants :
    (∀ (ti : TouchPointInfo) (evs : List DeviceEvent), HistInv ti →
      HistInv (evs.foldl (fun s e => (TouchEventHistoryPush s e).state) ti)) ∧
    (∀ ti : TouchPointInfo, ti.history = none → HistInv ti) ∧
    (∀ (allocOk : Bool) (ti : TouchPointInfo), ti.history = none →
      HistInv (TouchEventHistoryAllocate allocOk ti).1) ∧
    (∀ (ti : TouchPointInfo) (ev : DeviceEvent),
      ev.type = EvType.ET_TouchEnd →
      TouchEventHistoryPush ti ev = ⟨ti, false, none⟩) ∧
    (∀ (ti : TouchPointInfo) (ev : DeviceEvent),
      ev.flags &&& (TOUCH_CLIENT_ID ||| TOUCH_REPLAYING) ≠ 0 →
      TouchEventHistoryPush ti ev = ⟨ti, false, none⟩) ∧
    (∀ (ti : TouchPointInfo) (ev : DeviceEvent),
      ev.type = EvType.ET_TouchBegin → 0 < ti.history_elements →
      TouchEventHistoryPush ti ev = ⟨ti, false, none⟩) ∧
    (∀ (ti : TouchPointInfo) (ev : DeviceEvent),
      ev.type = EvType.ET_Other →
      TouchEventHistoryPush ti ev = ⟨ti, false, none⟩) := by
  refine ⟨?_, ?_, ?_, ?_, ?_, ?_, ?_⟩
  · intro ti evs h
    induction evs generalizing ti with
    | nil => exact h
    | cons e es ih => exact ih _ (push_preserves_HistInv _ _ h)
  · intro ti h
    constructor <;> simp [countedHistory, h]
  · intro allocOk ti h
    unfold TouchEventHistoryAllocate
    rw [h]
    dsimp only [Option.isSome_none]
    cases allocOk with
    | true => constructor <;> simp [countedHistory]
    | false => constructor <;> simp [countedHistory]
  · intro ti ev h
    unfold TouchEventHistoryPush
    cases ti.history with
    | none => rfl
    | some buf => rw [h]; rfl
  · intro ti ev h
    unfold TouchEventHistoryPush
    cases ti.history with
    | none => rfl
    | some buf =>
      dsimp only
      split
      · rfl
      · simp [h]
  · intro ti ev hb h
    unfold TouchEventHistoryPush
    cases ti.history with
    | none => rfl
    | some buf =>
      rw [hb]
      dsimp only
      rw [if_pos (by simpa using h)]
  · intro ti ev h
    unfold TouchEventHistoryPush
    cases ti.history with
    | none => rfl
    | some buf => rw [h]; rfl

/-- A touch event with the given type and flags and no payload. -/
def mkEv (t : EvType) (fl : Nat) : DeviceEvent := ⟨t, fl, [], 0, 0⟩

/-- Witness for `history_push_invariants`: concrete instantiations of the
conjuncts, with every hypothesis discharged at a concrete input. -/
theorem history_push_invariants_witness :
    HistInv ([mkEv EvType.ET_TouchBegin 0, mkEv EvType.ET_TouchBegin 0,
        mkEv EvType.ET_TouchEnd 0].foldl
        (fun s e => (TouchEventHistoryPush s e).state)
        (TouchEventHistoryAllocate true zeroTouchPoint).1) ∧
    TouchEventHistoryPush zeroTouchPoint (mkEv EvType.ET_TouchEnd 0) =
      ⟨zeroTouchPoint, false, none⟩ ∧
    TouchEventHistoryPush zeroTouchPoint
        (mkEv EvType.ET_TouchUpdate TOUCH_REPLAYING) =
      ⟨zeroTouchPoint, false, none⟩ ∧
    TouchEventHistoryPush zeroTouchPoint (mkEv EvType.ET_Other 0) =
      ⟨zeroTouchPoint, false, none⟩ :=
  ⟨history_push_invariants.1 _ _
      (history_push_invariants.2.2.1 true zeroTouchPoint rfl),
   history_push_invariants.2.2.2.1 _ _ rfl,
   history_push_invariants.2.2.2.2.1 _ _ (by decide),
   history_push_invariants.2.2.2.2.2.2 _ _ rfl⟩

/-- Instrumented fold of `TouchEventHistoryPush`: final state, number of
overflow diagnostics emitted, and the list of buffer indices written. -/
def pushTrace (ti : TouchPointInfo) (evs : List DeviceEvent) :
    TouchPointInfo × Nat × List Nat :=
  evs.foldl
    (fun acc ev =>
      let r := TouchEventHistoryPush acc.1 ev
      (r.state, acc.2.1 + (if r.diag then 1 else 0),
        acc.2.2 ++ r.stored.toList))
    (ti, 0, [])

/-- The C5 scenario input: one begin followed by 150 updates. -/
def c5Events : List DeviceEvent :=
  mkEv EvType.ET_TouchBegin 0 :: List.replicate 150 (mkEv EvType.ET_TouchUpdate 0)

/-- The C5 scenario run, from a freshly allocated capacity-100 history. -/
def c5Run : TouchPointInfo × Nat × List Nat :=
  pushTrace (TouchEventHistoryAllocate true zeroTouchPoint).1 c5Events

set_option maxRecDepth 100000 in
/-- C5: a capacity-100 history receiving 1 begin + 150 updates ends with
exactly 99 stored elements (capacity − 1), the overflow diagnostic was
emitted, and every store performed landed at an index below the allocated
capacity 100 (no storage overrun). -/
theorem history_overflow_clamps_at_99 :
    c5Run.1.history_elements = 99 ∧
    c5Run.1.history_size = 100 ∧
    0 < c5Run.2.1 ∧
    c5Run.2.2.all (fun i => i < 100) = true := by
  decide

theorem or_and_self (a b : Nat) : (a ||| b) &&& b = b := by
  apply Nat.eq_of_testBit_eq
  intro i
  simp only [Nat.testBit_and, Nat.testBit_or]
  cases a.testBit i <;> cases b.testBit i <;> rfl

/-- C6: on a touch whose allocated history holds one begin record `b`
followed by the update records `us` (so `N = us.length`), replay
regenerates exactly `N + 1` synthetic events in recording order: first a
synthetic begin built from the first two valuator channels of `b`, tagged
client-id + replaying (plus pointer-emulated when `emulate_pointer` is
set), followed by the `N` updates each tagged replaying. -/
theorem replay_regenerates_history
    (ti : TouchPointInfo) (buf : List DeviceEvent) (b : DeviceEvent)
    (us : List DeviceEvent)
    (hh : ti.history = some buf)
    (hc : countedHistory ti = b :: us)
    (hb : b.type = EvType.ET_TouchBegin)
    (hu : ∀ u ∈ us, u.type = EvType.ET_TouchUpdate) :
    TouchEventHistoryReplay ti =
      ({ type := EvType.ET_TouchBegin,
         flags := (TOUCH_CLIENT_ID ||| TOUCH_REPLAYING) |||
           (if ti.emulate_pointer then TOUCH_POINTER_EMULATED else 0),
         data := [b.data.getD 0 0, b.data.getD 1 0],
         root_x := 0, root_y := 0 } : DeviceEvent) ::
        us.map (fun e => { e with flags := e.flags ||| TOUCH_REPLAYING }) ∧
    (TouchEventHistoryReplay ti).length = us.length + 1 ∧
    (∀ e ∈ (TouchEventHistoryReplay ti).tail,
      e.flags &&& TOUCH_REPLAYING ≠ 0) ∧
    (∀ hd ∈ (TouchEventHistoryReplay ti).head?,
      hd.flags &&& TOUCH_CLIENT_ID ≠ 0 ∧ hd.flags &&& TOUCH_REPLAYING ≠ 0 ∧
      (ti.emulate_pointer = true →
        hd.flags &&& TOUCH_POINTER_EMULATED ≠ 0)) := by
  have h1 : buf.take ti.history_elements = b :: us := by
    unfold countedHistory at hc
    rw [hh] at hc
    exact hc
  have hb0 : buf.getD 0 zeroEvent = b := by
    cases buf with
    | nil => simp at h1
    | cons x rest =>
      cases he : ti.history_elements with
      | zero => rw [he] at h1; simp at h1
      | succ m =>
        rw [he, List.take_succ_cons] at h1
        have hx : x = b := by
          have h2 := congrArg (fun l => l.headD zeroEvent) h1
          simpa using h2
        simpa using hx
  have hmain : TouchEventHistoryReplay ti =
      ({ type := EvType.ET_TouchBegin,
         flags := (TOUCH_CLIENT_ID ||| TOUCH_REPLAYING) |||
           (if ti.emulate_pointer then TOUCH_POINTER_EMULATED else 0),
         data := [b.data.getD 0 0, b.data.getD 1 0],
         root_x := 0, root_y := 0 } : DeviceEvent) ::
        us.map (fun e => { e with flags := e.flags ||| TOUCH_REPLAYING }) := by
    unfold TouchEventHistoryReplay
    rw [hh]
    dsimp only
    rw [hb0, h1]
    rfl
  refine ⟨hmain, ?_, ?_, ?_⟩
  · rw [hmain]
    simp
  · rw [hmain]
    intro e he
    simp only [List.tail_cons] at he
    obtain ⟨u, _, rfl⟩ := List.mem_map.mp he
    rw [or_and_self]
    decide
  · rw [hmain]
    intro hd hhd
    simp only [List.head?_cons, Option.mem_def, Option.some.injEq] at hhd
    subst hhd
    cases hep : ti.emulate_pointer with
    | false =>
      refine ⟨?_, ?_, ?_⟩
      · exact (by decide : ((TOUCH_CLIENT_ID ||| TOUCH_REPLAYING) ||| 0) &&&
          TOUCH_CLIENT_ID ≠ 0)
      · exact (by decide : ((TOUCH_CLIENT_ID ||| TOUCH_REPLAYING) ||| 0) &&&
          TOUCH_REPLAYING ≠ 0)
      · intro habs
        exact absurd habs Bool.false_ne_true
    | true =>
      refine ⟨?_, ?_, ?_⟩
      · exact (by decide : ((TOUCH_CLIENT_ID ||| TOUCH_REPLAYING) |||
          TOUCH_POINTER_EMULATED) &&& TOUCH_CLIENT_ID ≠ 0)
      · exact (by decide : ((TOUCH_CLIENT_ID ||| TOUCH_REPLAYING) |||
          TOUCH_POINTER_EMULATED) &&& TOUCH_REPLAYING ≠ 0)
      · intro _
        exact (by decide : ((TOUCH_CLIENT_ID ||| TOUCH_REPLAYING) |||
          TOUCH_POINTER_EMULATED) &&& TOUCH_POINTER_EMULATED ≠ 0)

/-- A concrete history for the C6 witness: one begin and two updates. -/
def c6Touch : TouchPointInfo :=
  { zeroTouchPoint with
      emulate_pointer := true
      history := some (⟨EvType.ET_TouchBegin, 0, [3, 4], 0, 0⟩ ::
        ⟨EvType.ET_TouchUpdate, 0, [5, 6], 0, 0⟩ ::
        [⟨EvType.ET_TouchUpdate, 0, [7, 8], 0, 0⟩])
      history_size := 100
      history_elements := 3 }

/-- Witness for `replay_regenerates_history` at the concrete `c6Touch`. -/
theorem replay_regenerates_history_witness :
    TouchEventHistoryReplay c6Touch =
      ({ type := EvType.ET_TouchBegin,
         flags := (TOUCH_CLIENT_ID ||| TOUCH_REPLAYING) |||
           (if c6Touch.emulate_pointer then TOUCH_POINTER_EMULATED else 0),
         data := [(3 : Int), 4], root_x := 0, root_y := 0 } : DeviceEvent) ::
        ([⟨EvType.ET_TouchUpdate, 0, [5, 6], 0, 0⟩,
          ⟨EvType.ET_TouchUpdate, 0, [7, 8], 0, 0⟩] :
            List DeviceEvent).map
          (fun e => { e with flags := e.flags ||| TOUCH_REPLAYING }) ∧
    (TouchEventHistoryReplay c6Touch).length = 2 + 1 :=
  have h := replay_regenerates_history c6Touch
    (⟨EvType.ET_TouchBegin, 0, [3, 4], 0, 0⟩ ::
      ⟨EvType.ET_TouchUpdate, 0, [5, 6], 0, 0⟩ ::
      [⟨EvType.ET_TouchUpdate, 0, [7, 8], 0, 0⟩])
    ⟨EvType.ET_TouchBegin, 0, [3, 4], 0, 0⟩
    [⟨EvType.ET_TouchUpdate, 0, [5, 6], 0, 0⟩,
      ⟨EvType.ET_TouchUpdate, 0, [7, 8], 0, 0⟩]
    rfl (by decide) rfl (by decide)
  ⟨h.1, h.2.1⟩

/-- The slot contents produced by a successful `TouchInitTouchPoint`:
inactive, fresh empty valuator mask, a 32-entry sprite-trace buffer seeded
with the root window, and the out-of-band `client_id` sentinel. -/
def freshTouchPoint (root numAxes : Nat) : TouchPointInfo :=
  { zeroTouchPoint with
      valuators := some (freshMask numAxes)
      sprite := { spriteTrace := root :: List.replicate 31 0
                  spriteTraceSize := 32
                  spriteTraceGood := 0 }
      client_id := clientIdSentinel }

/-- C9: growth of either table only appends new inactive,
freshly-initialized slots, never changing the index or content of any
existing slot; the driver-facing deferred growth takes the capacity from
`n` to `n + n/2 + 1`, the protocol-facing growth adds exactly one slot,
and a failed reallocation leaves the table (and hence its capacity)
unchanged. -/
theorem table_growth_appends_fresh_slots
    (dev : DeviceInt) (mOk tOk : Bool) (root numAxes : Nat)
    (touches : List TouchPointInfo) :
    (TouchResizeQueueGrow true dev).last_touches =
      dev.last_touches ++
        List.replicate (dev.last_touches.length / 2 + 1)
          (TouchInitDDXTouchPoint dev.numAxes) ∧
    (TouchResizeQueueGrow true dev).last_touches.length =
      dev.last_touches.length + dev.last_touches.length / 2 + 1 ∧
    TouchResizeQueueGrow false dev = dev ∧
    (TouchInitDDXTouchPoint dev.numAxes).active = false ∧
    (∀ i : Nat, i < dev.last_touches.length →
      (TouchResizeQueueGrow true dev).last_touches[i]? =
        dev.last_touches[i]?) ∧
    touchTableGrow true true true root numAxes touches =
      (touches ++ [freshTouchPoint root numAxes], true) ∧
    (freshTouchPoint root numAxes).active = false ∧
    touchTableGrow false mOk tOk root numAxes touches = (touches, false) := by
  have hgrow : (TouchResizeQueueGrow true dev).last_touches =
      dev.last_touches ++
        List.replicate (dev.last_touches.length / 2 + 1)
          (TouchInitDDXTouchPoint dev.numAxes) := by
    unfold TouchResizeQueueGrow
    dsimp only
    rw [if_pos rfl]
    have : dev.last_touches.length + dev.last_touches.length / 2 + 1 -
        dev.last_touches.length = dev.last_touches.length / 2 + 1 := by omega
    rw [this]
  refine ⟨hgrow, ?_, ?_, rfl, ?_, ?_, rfl, ?_⟩
  · rw [hgrow]
    simp
    omega
  · unfold TouchResizeQueueGrow
    rfl
  · intro i hi
    rw [hgrow]
    exact List.getElem?_append_left hi
  · unfold touchTableGrow TouchInitTouchPoint
    rw [if_pos rfl]
    dsimp only
    split
    case isTrue h => exact absurd h (by simp)
    case isFalse h =>
      split
      case isTrue h2 => exact absurd h2 (by simp)
      case isFalse h2 =>
        simp only [List.length_append, List.length_cons, List.length_nil,
          Nat.add_sub_cancel]
        have hset : (touches ++ [zeroTouchPoint]).set touches.length
            (freshTouchPoint root numAxes) =
            touches ++ [freshTouchPoint root numAxes] := by
          simp [List.set_append]
        rw [← hset]
        rfl
  · unfold touchTableGrow
    rfl

/-- Witness for `table_growth_appends_fresh_slots` at a concrete device
with two driver-facing slots and an empty protocol-facing table. -/
theorem table_growth_appends_fresh_slots_witness :
    (TouchResizeQueueGrow true (freshDevice TouchMode.XIDirectTouch 2 2)).last_touches =
      (freshDevice TouchMode.XIDirectTouch 2 2).last_touches ++
        List.replicate 2 (TouchInitDDXTouchPoint 2) ∧
    (TouchResizeQueueGrow true
      (freshDevice TouchMode.XIDirectTouch 2 2)).last_touches[0]? =
      (freshDevice TouchMode.XIDirectTouch 2 2).last_touches[0]? ∧
    touchTableGrow true true true 5 2 [] = ([freshTouchPoint 5 2], true) := by
  have h := table_growth_appends_fresh_slots
    (freshDevice TouchMode.XIDirectTouch 2 2) true true 5 2 []
  exact ⟨h.1, h.2.2.2.2.1 0 (by decide), h.2.2.2.2.2.1⟩

/-! ### Uniqueness machinery (C1, C3) -/

theorem findActiveDDXID_none_spec :
    ∀ (l : List DDXTouchPointInfo) (ddx : Nat),
      findActiveDDXID l ddx = none →
      ∀ (k : Nat) (a : DDXTouchPointInfo), l[k]? = some a →
        a.active = true → a.ddx_id ≠ ddx
  | [], _, _, k, a => by simp
  | s :: rest, ddx, h, k, a => by
    unfold findActiveDDXID at h
    by_cases hs : (s.active && s.ddx_id == ddx) = true
    · rw [if_pos hs] at h
      cases h
    · rw [if_neg hs] at h
      have hrest : findActiveDDXID rest ddx = none := by
        cases hr : findActiveDDXID rest ddx with
        | none => rfl
        | some v => rw [hr] at h; cases h
      cases k with
      | zero =>
        intro hk ha
        have : s = a := by
          simpa using hk
        subst this
        intro habs
        exact hs (by simp [ha, habs])
      | succ m =>
        intro hk ha
        exact findActiveDDXID_none_spec rest ddx hrest m a (by simpa using hk) ha

theorem findActiveClientID_none_spec :
    ∀ (l : List TouchPointInfo) (cid : Nat),
      findActiveClientID l cid = none →
      ∀ (k : Nat) (a : TouchPointInfo), l[k]? = some a →
        a.active = true → a.client_id ≠ cid
  | [], _, _, k, a => by simp
  | s :: rest, cid, h, k, a => by
    unfold findActiveClientID at h
    by_cases hs : (s.active && s.client_id == cid) = true
    · rw [if_pos hs] at h
      cases h
    · rw [if_neg hs] at h
      have hrest : findActiveClientID rest cid = none := by
        cases hr : findActiveClientID rest cid with
        | none => rfl
        | some v => rw [hr] at h; cases h
      cases k with
      | zero =>
        intro hk ha
        have : s = a := by
          simpa using hk
        subst this
        intro habs
        exact hs (by simp [ha, habs])
      | succ m =>
        intro hk ha
        exact findActiveClientID_none_spec rest cid hrest m a
          (by simpa using hk) ha

theorem DDXUnique_set_inactive (l : List DDXTouchPointInfo) (i : Nat)
    (slot : DDXTouchPointInfo) (hs : slot.active = false)
    (h : DDXUnique l) : DDXUnique (l.set i slot) := by
  rcases Nat.lt_or_ge i l.length with hlt | hge
  · intro p q a b hpq hp hq ha hb
    by_cases hpi : p = i
    · subst hpi
      rw [List.getElem?_set_self hlt] at hp
      cases hp
      rw [hs] at ha
      cases ha
    · by_cases hqi : q = i
      · subst hqi
        rw [List.getElem?_set_self hlt] at hq
        cases hq
        rw [hs] at hb
        cases hb
      · rw [List.getElem?_set_ne (fun he => hpi he.symm)] at hp
        rw [List.getElem?_set_ne (fun he => hqi he.symm)] at hq
        exact h p q a b hpq hp hq ha hb
  · rw [List.set_eq_of_length_le hge]
    exact h

theorem DDXUnique_set_fresh (l : List DDXTouchPointInfo) (i : Nat)
    (slot : DDXTouchPointInfo) (h : DDXUnique l)
    (hfresh : ∀ (k : Nat) (a : DDXTouchPointInfo), l[k]? = some a →
      a.active = true → a.ddx_id ≠ slot.ddx_id) :
    DDXUnique (l.set i slot) := by
  rcases Nat.lt_or_ge i l.length with hlt | hge
  · intro p q a b hpq hp hq ha hb
    by_cases hpi : p = i
    · subst hpi
      rw [List.getElem?_set_self hlt] at hp
      cases hp
      by_cases hqi : q = p
      · exact absurd hqi.symm hpq
      · rw [List.getElem?_set_ne (fun he => hqi he.symm)] at hq
        exact fun he => hfresh q b hq hb (he.symm)
    · by_cases hqi : q = i
      · subst hqi
        rw [List.getElem?_set_self hlt] at hq
        cases hq
        rw [List.getElem?_set_ne (fun he => hpi he.symm)] at hp
        exact hfresh p a hp ha
      · rw [List.getElem?_set_ne (fun he => hpi he.symm)] at hp
        rw [List.getElem?_set_ne (fun he => hqi he.symm)] at hq
        exact h p q a b hpq hp hq ha hb
  · rw [List.set_eq_of_length_le hge]
    exact h

theorem ClientUnique_set_inactive (l : List TouchPointInfo) (i : Nat)
    (slot : TouchPointInfo) (hs : slot.active = false)
    (h : ClientUnique l) : ClientUnique (l.set i slot) := by
  rcases Nat.lt_or_ge i l.length with hlt | hge
  · intro p q a b hpq hp hq ha hb
    by_cases hpi : p = i
    · subst hpi
      rw [List.getElem?_set_self hlt] at hp
      cases hp
      rw [hs] at ha
      cases ha
    · by_cases hqi : q = i
      · subst hqi
        rw [List.getElem?_set_self hlt] at hq
        cases hq
        rw [hs] at hb
        cases hb
      · rw [List.getElem?_set_ne (fun he => hpi he.symm)] at hp
        rw [List.getElem?_set_ne (fun he => hqi he.symm)] at hq
        exact h p q a b hpq hp hq ha hb
  · rw [List.set_eq_of_length_le hge]
    exact h

theorem ClientUnique_set_fresh (l : List TouchPointInfo) (i : Nat)
    (slot : TouchPointInfo) (h : ClientUnique l)
    (hfresh : ∀ (k : Nat) (a : TouchPointInfo), l[k]? = some a →
      a.active = true → a.client_id ≠ slot.client_id) :
    ClientUnique (l.set i slot) := by
  rcases Nat.lt_or_ge i l.length with hlt | hge
  · intro p q a b hpq hp hq ha hb
    by_cases hpi : p = i
    · subst hpi
      rw [List.getElem?_set_self hlt] at hp
      cases hp
      by_cases hqi : q = p
      · exact absurd hqi.symm hpq
      · rw [List.getElem?_set_ne (fun he => hqi he.symm)] at hq
        exact fun he => hfresh q b hq hb (he.symm)
    · by_cases hqi : q = i
      · subst hqi
        rw [List.getElem?_set_self hlt] at hq
        cases hq
        rw [List.getElem?_set_ne (fun he => hpi he.symm)] at hp
        exact hfresh p a hp ha
      · rw [List.getElem?_set_ne (fun he => hpi he.symm)] at hp
        rw [List.getElem?_set_ne (fun he => hqi he.symm)] at hq
        exact h p q a b hpq hp hq ha hb
  · rw [List.set_eq_of_length_le hge]
    exact h

theorem append_single_getElem {α : Type} (l : List α) (s : α) (p : Nat)
    (a : α) (hp : (l ++ [s])[p]? = some a) : l[p]? = some a ∨ a = s := by
  rcases Nat.lt_or_ge p l.length with hlt | hge
  · left
    rw [List.getElem?_append_left hlt] at hp
    exact hp
  · right
    rw [List.getElem?_append_right hge] at hp
    cases hd : p - l.length with
    | zero =>
      rw [hd] at hp
      simpa using hp.symm
    | succ m =>
      rw [hd] at hp
      simp at hp

theorem ClientUnique_append_inactive (l : List TouchPointInfo)
    (s : TouchPointInfo) (hs : s.active = false) (h : ClientUnique l) :
    ClientUnique (l ++ [s]) := by
  intro p q a b hpq hp hq ha hb
  rcases append_single_getElem l s p a hp with hp' | hp'
  · rcases append_single_getElem l s q b hq with hq' | hq'
    · exact h p q a b hpq hp' hq' ha hb
    · subst hq'
      rw [hs] at hb
      cases hb
  · subst hp'
    rw [hs] at ha
    cases ha

/-- A failed `TouchBeginDDXTouch` (clean NULL return) leaves the counter,
the slot table and the touch class unchanged. -/
theorem TouchBeginDDXTouch_ok_none (c : Nat) (dev : DeviceInt) (id : Nat)
    (n' : Nat) (dev' : DeviceInt)
    (h : TouchBeginDDXTouch c dev id = CResult.ok (n', dev', none)) :
    n' = c ∧ dev'.last_touches = dev.last_touches ∧
      dev'.touch = dev.touch := by
  unfold TouchBeginDDXTouch at h
  cases ht : dev.touch with
  | none =>
    rw [ht] at h
    cases h
  | some t =>
    rw [ht] at h
    dsimp only at h
    rw [if_neg (by simp)] at h
    split at h
    case isTrue hdup =>
      simp only [CResult.ok.injEq, Prod.mk.injEq] at h
      refine ⟨h.1.symm, by rw [← h.2.1], ?_⟩
      rw [← h.2.1]
      all_goals exact ht
    case isFalse hdup =>
      split at h
      · simp at h
      · simp only [CResult.ok.injEq, Prod.mk.injEq] at h
        refine ⟨h.1.symm, by rw [← h.2.1], ?_⟩
        rw [← h.2.1]

/-- A successful `TouchBeginDDXTouch` post-increments the counter and
activates exactly one slot, carrying the fresh `ddx_id` and the assigned
`client_id`, in a table where no active slot already had that `ddx_id`. -/
theorem TouchBeginDDXTouch_ok_some (c : Nat) (dev : DeviceInt) (id : Nat)
    (n' : Nat) (dev' : DeviceInt) (i : Nat)
    (h : TouchBeginDDXTouch c dev id = CResult.ok (n', dev', some i)) :
    n' = nextClientIdStep c ∧
    findActiveDDXID dev.last_touches id = none ∧
    dev'.touch = dev.touch ∧
    ∃ slot : DDXTouchPointInfo,
      dev'.last_touches = dev.last_touches.set i slot ∧
      slot.active = true ∧ slot.ddx_id = id ∧ slot.client_id = c := by
  unfold TouchBeginDDXTouch at h
  cases ht : dev.touch with
  | none =>
    rw [ht] at h
    cases h
  | some t =>
    rw [ht] at h
    dsimp only at h
    rw [if_neg (by simp)] at h
    split at h
    case isTrue hdup => simp at h
    case isFalse hdup =>
      have hnone : findActiveDDXID dev.last_touches id = none := by
        cases hf : findActiveDDXID dev.last_touches id with
        | none => rfl
        | some v => exact absurd (by rw [hf]; rfl) hdup
      split at h
      · rename_i ep j heq
        simp only [CResult.ok.injEq, Prod.mk.injEq, Option.some.injEq] at h
        obtain ⟨hn, hdev, hi⟩ := h
        subst i
        refine ⟨hn.symm, hnone, ?_, ?_⟩
        · rw [← hdev]
        · cases hj : dev.last_touches[j]? with
          | some sj =>
            refine ⟨{ sj with active := true
                              ddx_id := id
                              client_id := c
                              emulate_pointer := ep }, ?_, rfl, rfl, rfl⟩
            rw [← hdev]
            dsimp only
            rw [hj]
          | none =>
            refine ⟨{ active := true
                      ddx_id := id
                      client_id := c
                      emulate_pointer := ep
                      valuators := none }, ?_, rfl, rfl, rfl⟩
            rw [← hdev]
            dsimp only
            rw [hj]
      · simp at h

/-- `TouchEndTouch` always deactivates the touch point and zeroes its
client id. -/
theorem TouchEndTouch_resets (f : PointerState → PointerState)
    (ps : PointerState) (ti : TouchPointInfo) :
    (TouchEndTouch f ps ti).2.1.active = false ∧
    (TouchEndTouch f ps ti).2.1.client_id = 0 :=
  ⟨rfl, rfl⟩

theorem foldl_inv {σ τ : Type} (P : σ → Prop) (f : σ → τ → σ)
    (hstep : ∀ s t, P s → P (f s t)) :
    ∀ (l : List τ) (s : σ), P s → P (l.foldl f s)
  | [], _, h => h
  | t :: ts, s, h => foldl_inv P f hstep ts (f s t) (hstep s t h)

theorem ddxStep_preserves_unique (s : DDXRun) (op : DDXOp)
    (h : DDXUnique s.dev.last_touches) :
    DDXUnique (ddxStep s op).dev.last_touches := by
  cases op with
  | endOp i =>
    show DDXUnique (TouchEndDDXTouch s.dev i).last_touches
    unfold TouchEndDDXTouch
    cases ht : s.dev.touch with
    | none => exact h
    | some t =>
      cases hi : s.dev.last_touches[i]? with
      | none => exact h
      | some slot =>
        exact DDXUnique_set_inactive _ _ _ rfl h
  | beginOp id =>
    unfold ddxStep
    dsimp only
    cases hres : TouchBeginDDXTouch s.next_client_id s.dev id with
    | nullDeref =>
      exact h
    | ok res =>
      obtain ⟨n', dev', r⟩ := res
      dsimp only
      cases r with
      | none =>
        obtain ⟨-, hlt, -⟩ := TouchBeginDDXTouch_ok_none _ _ _ _ _ hres
        rw [hlt]
        exact h
      | some i =>
        obtain ⟨-, hfind, -, slot, hlt, hact, hddx, -⟩ :=
          TouchBeginDDXTouch_ok_some _ _ _ _ _ _ hres
        rw [hlt]
        refine DDXUnique_set_fresh _ _ _ h ?_
        intro k a hk ha
        rw [hddx]
        exact findActiveDDXID_none_spec _ _ hfind k a hk ha

/-- The growth step of `TouchBeginTouch` either leaves the table alone or
appends a single inactive slot. -/
theorem touchTableGrow_shape (rOk mOk tOk : Bool) (root numAxes : Nat)
    (touches : List TouchPointInfo) :
    (touchTableGrow rOk mOk tOk root numAxes touches).1 = touches ∨
    ∃ s : TouchPointInfo,
      (touchTableGrow rOk mOk tOk root numAxes touches).1 =
        touches ++ [s] ∧ s.active = false := by
  unfold touchTableGrow
  cases rOk with
  | false => exact Or.inl rfl
  | true =>
    rw [if_pos rfl]
    unfold TouchInitTouchPoint
    dsimp only
    split
    case isTrue hge => exact absurd hge (by simp)
    case isFalse hge =>
      cases mOk with
      | false =>
        refine Or.inr ⟨zeroTouchPoint, ?_, rfl⟩
        simp [List.set_append]
      | true =>
        cases tOk with
        | false =>
          refine Or.inr ⟨{ zeroTouchPoint with valuators := none }, ?_, rfl⟩
          simp [List.set_append]
        | true =>
          refine Or.inr ⟨freshTouchPoint root numAxes, ?_, rfl⟩
          simp [List.set_append, freshTouchPoint]

theorem protoTouches_some (dev : DeviceInt) (t : TouchClass)
    (h : dev.touch = some t) : protoTouches dev = t.touches := by
  unfold protoTouches
  rw [h]

theorem ClientUnique_activate (l : List TouchPointInfo) (i sid tid : Nat)
    (ep : Bool) (h : ClientUnique l)
    (hfresh : ∀ (k : Nat) (a : TouchPointInfo), l[k]? = some a →
      a.active = true → a.client_id ≠ tid) :
    ClientUnique (activateTouch l i sid tid ep) := by
  unfold activateTouch
  cases hi : l[i]? with
  | none => exact h
  | some s =>
    refine ClientUnique_set_fresh _ _ _ h ?_
    intro k a hk ha
    exact hfresh k a hk ha

theorem fresh_append (l : List TouchPointInfo) (s : TouchPointInfo)
    (hs : s.active = false) (tid : Nat)
    (hfresh : ∀ (k : Nat) (a : TouchPointInfo), l[k]? = some a →
      a.active = true → a.client_id ≠ tid) :
    ∀ (k : Nat) (a : TouchPointInfo), (l ++ [s])[k]? = some a →
      a.active = true → a.client_id ≠ tid := by
  intro k a hk ha
  rcases append_single_getElem l s k a hk with hk' | hk'
  · exact hfresh k a hk' ha
  · subst hk'
    rw [hs] at ha
    cases ha

theorem protoStep_preserves_unique (dev : DeviceInt) (op : ProtoOp)
    (h : ClientUnique (protoTouches dev)) :
    ClientUnique (protoTouches (protoStep dev op)) := by
  cases op with
  | endOp i =>
    unfold protoStep
    dsimp only
    cases ht : dev.touch with
    | none => exact h
    | some t =>
      dsimp only
      have h' : ClientUnique t.touches := by
        rw [protoTouches_some dev t ht] at h
        exact h
      cases hi : t.touches[i]? with
      | none => exact h
      | some tp =>
        dsimp only
        exact ClientUnique_set_inactive _ _ _
          (TouchEndTouch_resets id
            { grabActive := false, fromPassiveGrab := false,
              isPointerGrab := false, buttonsDown := 0,
              touchButtonsDown := 0 } tp).1 h'
  | beginOp rOk mOk tOk root sid tid ep =>
    unfold protoStep TouchBeginTouch
    dsimp only
    cases ht : dev.touch with
    | none => exact h
    | some t =>
      have h' : ClientUnique t.touches := by
        rw [protoTouches_some dev t ht] at h
        exact h
      dsimp only
      by_cases hdup : (TouchFindByClientID dev tid).isSome = true
      · rw [if_pos hdup]
        exact h
      · rw [if_neg hdup]
        have hfind : findActiveClientID t.touches tid = none := by
          unfold TouchFindByClientID at hdup
          rw [ht] at hdup
          dsimp only at hdup
          cases hf : findActiveClientID t.touches tid with
          | none => rfl
          | some v => exact absurd (by rw [hf]; rfl) hdup
        have base := findActiveClientID_none_spec t.touches tid hfind
        cases hscan : findInactiveTouch t.touches with
        | some i =>
          exact ClientUnique_activate _ _ _ _ _ h' base
        | none =>
          cases hg : touchTableGrow rOk mOk tOk root dev.numAxes t.touches
            with
          | mk touches' ok =>
            have hshape := touchTableGrow_shape rOk mOk tOk root dev.numAxes
              t.touches
            rw [hg] at hshape
            dsimp only at hshape
            have hun' : ClientUnique touches' := by
              rcases hshape with he | ⟨s0, he, hs0⟩
              · rw [he]; exact h'
              · rw [he]; exact ClientUnique_append_inactive _ _ hs0 h'
            have hfr' : ∀ (k : Nat) (a : TouchPointInfo),
                touches'[k]? = some a → a.active = true →
                a.client_id ≠ tid := by
              rcases hshape with he | ⟨s0, he, hs0⟩
              · rw [he]; exact base
              · rw [he]; exact fresh_append _ _ hs0 tid base
            dsimp only
            cases ok with
            | false => exact hun'
            | true =>
              cases hscan2 : findInactiveTouch touches' with
              | some i => exact ClientUnique_activate _ _ _ _ _ hun' hfr'
              | none => exact hun'

/-- C1: for every device and every sequence of begin/end calls on the two
registries (from a fresh device of any driver-facing capacity), at any
time at most one active driver-facing slot carries a given `ddx_id` and
at most one active protocol-facing touch point carries a given
`client_id`. -/
theorem registries_active_ids_unique (mode : TouchMode)
    (n numAxes numAxes2 : Nat) (ddxOps : List DDXOp)
    (protoOps : List ProtoOp) :
    DDXUnique (ddxRun mode n numAxes ddxOps).dev.last_touches ∧
    ClientUnique (protoTouches (protoRun mode n numAxes2 protoOps)) := by
  constructor
  · unfold ddxRun
    refine foldl_inv (fun s => DDXUnique s.dev.last_touches) ddxStep
      ddxStep_preserves_unique ddxOps _ ?_
    intro p q a b hpq hp hq ha hb
    have ha' : a = TouchInitDDXTouchPoint numAxes :=
      List.eq_of_mem_replicate (List.getElem?_mem hp)
    rw [ha'] at ha
    cases ha
  · unfold protoRun
    refine foldl_inv (fun d => ClientUnique (protoTouches d)) protoStep
      protoStep_preserves_unique protoOps _ ?_
    intro p q a b hpq hp hq ha hb
    simp [protoTouches, freshDevice] at hp

theorem nextClientIdStep_ne_zero (c : Nat) : nextClientIdStep c ≠ 0 := by
  unfold nextClientIdStep
  dsimp only
  split
  · exact one_ne_zero
  · assumption

theorem nextClientIdStep_lt (c : Nat) : nextClientIdStep c < 2 ^ 32 := by
  unfold nextClientIdStep
  dsimp only
  split
  · norm_num
  · exact Nat.mod_lt _ (by norm_num)

/-- The C3 invariant on a driver-facing run: the counter is a nonzero
32-bit value, the trace of assigned ids is a wraparound-successor chain
of nonzero ids, and the counter is the successor of the last assignment. -/
def assignedChain (s : DDXRun) : Prop :=
  s.next_client_id ≠ 0 ∧ s.next_client_id < 2 ^ 32 ∧
  List.Chain' (fun a b => b = nextClientIdStep a) s.assigned ∧
  (∀ a ∈ s.assigned, a ≠ 0) ∧
  (∀ last ∈ s.assigned.getLast?, s.next_client_id = nextClientIdStep last)

theorem ddxStep_preserves_chain (s : DDXRun) (op : DDXOp)
    (h : assignedChain s) : assignedChain (ddxStep s op) := by
  obtain ⟨h0, h1, h2, h3, h4⟩ := h
  cases op with
  | endOp i => exact ⟨h0, h1, h2, h3, h4⟩
  | beginOp id =>
    unfold ddxStep
    dsimp only
    cases hres : TouchBeginDDXTouch s.next_client_id s.dev id with
    | nullDeref => exact ⟨h0, h1, h2, h3, h4⟩
    | ok res =>
      obtain ⟨n', dev', r⟩ := res
      dsimp only
      cases r with
      | none =>
        obtain ⟨hn, -, -⟩ := TouchBeginDDXTouch_ok_none _ _ _ _ _ hres
        subst hn
        exact ⟨h0, h1, by simpa using h2, by simpa using h3,
          by simpa using h4⟩
      | some i =>
        obtain ⟨hn, -, -, -⟩ := TouchBeginDDXTouch_ok_some _ _ _ _ _ _ hres
        subst hn
        refine ⟨nextClientIdStep_ne_zero _, nextClientIdStep_lt _, ?_, ?_, ?_⟩
        · refine List.chain'_append.mpr ⟨h2, List.chain'_singleton _, ?_⟩
          intro x hx y hy
          have hy' : y = s.next_client_id := by
            have := hy
            simp at this
            omega
          rw [hy']
          exact h4 x hx
        · intro a ha
          rcases List.mem_append.mp ha with ha | ha
          · exact h3 a ha
          · rw [List.mem_singleton.mp ha]
            exact h0
        · intro last hlast
          have : (s.assigned ++ [s.next_client_id]).getLast? =
              some s.next_client_id := by
            simp
          rw [this] at hlast
          have hl : last = s.next_client_id := by
            have := hlast
            simp at this
            omega
          rw [hl]

/-- Every driver-facing run from the fresh state satisfies the counter
invariant. -/
theorem ddxRun_chain (mode : TouchMode) (n numAxes : Nat)
    (ops : List DDXOp) : assignedChain (ddxRun mode n numAxes ops) :=
  foldl_inv assignedChain ddxStep ddxStep_preserves_chain ops _
    ⟨one_ne_zero, by norm_num, List.chain'_nil, by simp, by simp⟩

/-- C3: the process-wide client-id counter starts at 1; every successful
driver-facing begin assigns the current counter value to the new slot and
post-increments the counter through `nextClientIdStep` (32-bit wraparound
skipping 0); consequently the trace of assigned client ids of any run is
a wraparound-successor chain (strictly increasing modulo wraparound) and
never contains 0. -/
theorem client_id_counter_spec (mode : TouchMode) (n numAxes : Nat)
    (ops : List DDXOp) :
    (ddxRun mode n numAxes []).next_client_id = 1 ∧
    List.Chain' (fun a b => b = nextClientIdStep a)
      (ddxRun mode n numAxes ops).assigned ∧
    (∀ a ∈ (ddxRun mode n numAxes ops).assigned, a ≠ 0) ∧
    (∀ (c : Nat) (dev : DeviceInt) (id n' : Nat) (dev' : DeviceInt)
      (i : Nat),
      TouchBeginDDXTouch c dev id = CResult.ok (n', dev', some i) →
      n' = nextClientIdStep c ∧
      ∃ slot : DDXTouchPointInfo,
        dev'.last_touches = dev.last_touches.set i slot ∧
        slot.client_id = c) := by
  refine ⟨rfl, (ddxRun_chain mode n numAxes ops).2.2.1,
    (ddxRun_chain mode n numAxes ops).2.2.2.1, ?_⟩
  intro c dev id n' dev' i hres
  obtain ⟨hn, -, -, slot, hset, -, -, hcid⟩ :=
    TouchBeginDDXTouch_ok_some _ _ _ _ _ _ hres
  exact ⟨hn, slot, hset, hcid⟩

/-- The slot produced by the witness call of `client_id_counter_spec`:
activated with `ddx_id = 5`, `client_id = 1`, pointer emulation on
(direct mode, no other touch active). -/
def c3slot : DDXTouchPointInfo :=
  { active := true
    ddx_id := 5
    client_id := 1
    emulate_pointer := true
    valuators := some (freshMask 2) }

/-- See `client_id_counter_spec_witness`. -/
def c3dev : DeviceInt :=
  { touch := some { mode := TouchMode.XIDirectTouch, touches := [], buttonsDown := 0 }
    last_touches := [c3slot, TouchInitDDXTouchPoint 2]
    resize_waiting := false
    numAxes := 2 }

/-- Witness for `client_id_counter_spec`: the first begin on a fresh
direct-touch device with two slots assigns client id 1 and steps the
counter to 2. -/
theorem client_id_counter_spec_witness :
    (ddxRun TouchMode.XIDirectTouch 2 2 []).next_client_id = 1 ∧
    ((2 : Nat) = nextClientIdStep 1 ∧
      ∃ slot : DDXTouchPointInfo,
        c3dev.last_touches =
          (freshDevice TouchMode.XIDirectTouch 2 2).last_touches.set 0 slot ∧
        slot.client_id = 1) :=
  ⟨(client_id_counter_spec TouchMode.XIDirectTouch 2 2 []).1,
   (client_id_counter_spec TouchMode.XIDirectTouch 2 2 []).2.2.2 1
     (freshDevice TouchMode.XIDirectTouch 2 2) 5 2 c3dev 0 (by decide)⟩
